import Mathlib

/-!
Shallow embedding of the twister2 test-specification core:
`specification_processor.py` (spec merging, per-platform resolution,
eligibility predicates) and `filter_plugin.py` (collection-time
selection filters), together with theorems settling the spec claims.

Python dicts are modelled as association lists, Python sets of strings
as lists of strings (with truthiness = non-emptiness), paths as lists of
path segments, and the logging side channel as an explicitly returned
list of log lines.
-/

set_option autoImplicit false

namespace Twister

/-- Python `str.join`: `sep.join(args)`. -/
def str_join (sep : String) : List String → String
  | [] => ""
  | [a] => a
  | a :: rest => a ++ sep ++ str_join sep rest

/-- Model of `_join_filters` from `specification_processor.py`: a singleton list is
returned unchanged; otherwise empty strings are dropped, each remaining
argument is wrapped in parentheses and the results are joined by
`' and '`. -/
def join_filters (args : List String) : String :=
  match args with
  | [a] => a
  | _ => str_join " and " ((args.filter (fun arg => arg ≠ "")).map (fun arg => "(" ++ arg ++ ")"))

/-- Model of `_join_strings` from `specification_processor.py`: empty strings are
removed and the rest joined by a single space. -/
def join_strings (args : List String) : String :=
  str_join " " (args.filter (fun arg => arg ≠ ""))

/-- The `testing` sub-object of a platform specification; only the
timeout multiplier is consumed by the processor. -/
structure PlatformTesting where
  timeout_multiplier : ℚ
deriving DecidableEq

/-- Model of `PlatformSpecification`: the read-only platform descriptor consumed by
the eligibility predicates and the timeout computation. -/
structure PlatformSpecification where
  identifier : String
  arch : String
  type : String
  ram : Nat
  flash : Nat
  toolchain : List String
  only_tags : List String
  ignore_tags : List String
  testing : PlatformTesting
deriving DecidableEq

/-- Model of `YamlTestSpecification`: the resolved per-(scenario, platform)
specification with the declared constraint fields consumed by the
eligibility predicates. -/
structure YamlTestSpecification where
  name : String
  original_name : String
  platform : String
  build_name : String
  source_dir : List String
  rel_to_base_path : String
  timeout : ℚ
  tags : List String
  arch_allow : List String
  arch_exclude : List String
  platform_allow : List String
  platform_exclude : List String
  platform_type : List String
  min_ram : Nat
  min_flash : Nat
  toolchain_allow : List String
  toolchain_exclude : List String
  harness : String
  filter : String
deriving DecidableEq

/-- Model of `_log_test_skip`: the audit line written to the `testcases` logger.
Modelled as the rendered string. -/
def log_test_skip (test_spec : YamlTestSpecification) (platform : PlatformSpecification)
    (reason : String) : String :=
  "Skipped test " ++ test_spec.original_name ++ " for platform " ++ platform.identifier
    ++ " - " ++ reason

/-- Model of `should_skip_for_toolchain`: result plus the log lines it emits. -/
def should_skip_for_toolchain (test_spec : YamlTestSpecification)
    (platform : PlatformSpecification) : Bool × List String :=
  if platform.toolchain = [] then (false, [])
  else if test_spec.toolchain_allow ≠ [] ∧ test_spec.toolchain_allow.inter platform.toolchain = [] then
    (true, [log_test_skip test_spec platform "platform.toolchain not in testcase.toolchain_allow"])
  else if test_spec.toolchain_exclude ≠ [] ∧ test_spec.toolchain_exclude.inter platform.toolchain ≠ [] then
    (true, [log_test_skip test_spec platform "platform.toolchain in testcase.toolchain_exclude"])
  else (false, [])

/-- Model of `should_skip_for_tag`: result plus the log lines it emits. -/
def should_skip_for_tag (test_spec : YamlTestSpecification)
    (platform : PlatformSpecification) : Bool × List String :=
  if platform.only_tags ≠ [] ∧ platform.only_tags.inter test_spec.tags = [] then
    (true, [log_test_skip test_spec platform "testcase.tag not in platform.only_tags"])
  else if platform.ignore_tags ≠ [] ∧ platform.ignore_tags.inter test_spec.tags ≠ [] then
    (true, [log_test_skip test_spec platform "testcase.tag in platform.ignore_tags"])
  else (false, [])

/-- Model of `should_skip_for_arch`: result plus the log lines it emits. -/
def should_skip_for_arch (test_spec : YamlTestSpecification)
    (platform : PlatformSpecification) : Bool × List String :=
  if test_spec.arch_allow ≠ [] ∧ platform.arch ∉ test_spec.arch_allow then
    (true, [log_test_skip test_spec platform "platform.arch not in testcase.arch_allow"])
  else if test_spec.arch_exclude ≠ [] ∧ platform.arch ∈ test_spec.arch_exclude then
    (true, [log_test_skip test_spec platform "platform.arch in testcase.arch_exclude"])
  else (false, [])

/-- Model of `should_skip_for_platform`: result plus the log lines it emits. -/
def should_skip_for_platform (test_spec : YamlTestSpecification)
    (platform : PlatformSpecification) : Bool × List String :=
  if test_spec.platform_allow ≠ [] ∧ platform.identifier ∉ test_spec.platform_allow then
    (true, [log_test_skip test_spec platform "platform.identifier not in testcase.platform_allow"])
  else if test_spec.platform_exclude ≠ [] ∧ platform.identifier ∈ test_spec.platform_exclude then
    (true, [log_test_skip test_spec platform "platform.identifier in testcase.platform_exclude"])
  else (false, [])

/-- Model of `should_skip_for_platform_type`: result plus the log lines it emits. -/
def should_skip_for_platform_type (test_spec : YamlTestSpecification)
    (platform : PlatformSpecification) : Bool × List String :=
  if test_spec.platform_type ≠ [] ∧ platform.type ∉ test_spec.platform_type then
    (true, [log_test_skip test_spec platform "platform.type not in testcase.platform_type"])
  else (false, [])

/-- Model of `should_skip_for_min_ram`: result plus the log lines it emits. -/
def should_skip_for_min_ram (test_spec : YamlTestSpecification)
    (platform : PlatformSpecification) : Bool × List String :=
  if test_spec.min_ram > platform.ram then
    (true, [log_test_skip test_spec platform "platform.ram is less than testcase.min_ram"])
  else (false, [])

/-- Model of `should_skip_for_min_flash`: result plus the log lines it emits. -/
def should_skip_for_min_flash (test_spec : YamlTestSpecification)
    (platform : PlatformSpecification) : Bool × List String :=
  if test_spec.min_flash > platform.flash then
    (true, [log_test_skip test_spec platform "platform.flash is less than testcase.min_flash"])
  else (false, [])

/-- Model of `should_skip_for_pytest_harness`: result plus the log lines it emits. -/
def should_skip_for_pytest_harness (test_spec : YamlTestSpecification)
    (platform : PlatformSpecification) : Bool × List String :=
  if test_spec.harness = "pytest" then
    (true, [log_test_skip test_spec platform "test harness \"pytest\" is natively supported by pytest"])
  else (false, [])

/-- Model of `should_be_skip`: Python builds the full eight-element list (so every
predicate runs, and logs, eagerly) and then applies `any`. The second
component collects every log line emitted, in evaluation order. -/
def should_be_skip (test_spec : YamlTestSpecification)
    (platform : PlatformSpecification) : Bool × List String :=
  let results : List (Bool × List String) := [
    should_skip_for_arch test_spec platform,
    should_skip_for_min_flash test_spec platform,
    should_skip_for_min_ram test_spec platform,
    should_skip_for_platform test_spec platform,
    should_skip_for_platform_type test_spec platform,
    should_skip_for_pytest_harness test_spec platform,
    should_skip_for_tag test_spec platform,
    should_skip_for_toolchain test_spec platform]
  (results.any (fun r => r.1), (results.map (fun r => r.2)).flatten)

/-- A value stored in a spec dictionary: a string, a path (list of
segments), a number, or a list of strings. -/
inductive Val where
  | vstr (s : String)
  | vpath (p : List String)
  | vnum (n : Nat)
  | vlist (l : List String)
deriving DecidableEq

/-- A Python dict modelled as an association list in insertion order. -/
abbrev SpecDict := List (String × Val)

/-- Python dict read `d[k]` / `d.get(k)`. -/
def dictGet (d : SpecDict) (k : String) : Option Val :=
  match d with
  | [] => none
  | (k1, v1) :: rest => if k1 = k then some v1 else dictGet rest k

/-- Python dict assignment `d[k] = v`: replaces the value in place when the
key is present, otherwise appends the pair (insertion order). -/
def dictSet (d : SpecDict) (k : String) (v : Val) : SpecDict :=
  match d with
  | [] => [(k, v)]
  | (k1, v1) :: rest => if k1 = k then (k1, v) :: rest else (k1, v1) :: dictSet rest k v

/-- Lookup in the scenario-name → spec-dict mapping `self.tests`. -/
def testsGet (tests : List (String × SpecDict)) (k : String) : Option SpecDict :=
  match tests with
  | [] => none
  | (k1, v1) :: rest => if k1 = k then some v1 else testsGet rest k

/-- In-place update of the dict stored under a scenario name (models the
aliasing between `self.tests[scenario]` and the mutated dict). -/
def testsSet (tests : List (String × SpecDict)) (k : String) (d : SpecDict) :
    List (String × SpecDict) :=
  match tests with
  | [] => [(k, d)]
  | (k1, v1) :: rest => if k1 = k then (k1, d) :: rest else (k1, v1) :: testsSet rest k d

/-- Model of `Path.relative_to`: strips `base` off the front of `p`, or fails when
`p` is not rooted under `base` (pathlib raises `ValueError`). -/
def relative_to (p : List String) (base : List String) : Option (List String) :=
  if base.isPrefixOf p then some (p.drop base.length) else none

/-- Rendering of a path, used in error messages. -/
def pathToString (p : List String) : String :=
  str_join "/" p

/-- The exceptions a `prepare_spec_dict` call can raise:
`TwisterConfigurationException` for a missing scenario, and pathlib's
`ValueError` escaping from `Path.relative_to`. -/
inductive ProcessorError where
  | config (msg : String)
  | valueError (msg : String)
deriving DecidableEq

/-- State of a `YamlSpecificationProcessor` after `__init__`: the spec
file path, the zephyr base, the test directory, and the merged
scenario → spec-dict mapping `self.tests`. -/
structure YamlProcessorState where
  spec_file_path : String
  zephyr_base : List String
  test_directory_path : List String
  tests : List (String × SpecDict)
deriving DecidableEq

/-- Model of `YamlSpecificationProcessor.prepare_spec_dict`: looks the scenario up
in `self.tests` (raising a configuration error when absent), then writes
the context keys into that same dict; the relativization failure is
caught and replaced by the sentinel `'out_of_tree'`. Returns the dict and
the post-call processor state (the stored dict is the mutated one). -/
def yamlPrepareSpecDict (self : YamlProcessorState) (platform : PlatformSpecification)
    (scenario : String) : Except ProcessorError (SpecDict × YamlProcessorState) :=
  match testsGet self.tests scenario with
  | none => Except.error (ProcessorError.config
      ("There is no specification for " ++ scenario ++ " in file " ++ self.spec_file_path))
  | some test_spec_dict =>
    let d1 := dictSet test_spec_dict "name"
      (Val.vstr (scenario ++ "[" ++ platform.identifier ++ "]"))
    let d2 := dictSet d1 "original_name" (Val.vstr scenario)
    let d3 := dictSet d2 "platform" (Val.vstr platform.identifier)
    let d4 := dictSet d3 "source_dir" (Val.vpath self.test_directory_path)
    let d5 := dictSet d4 "rel_to_base_path"
      (match relative_to self.test_directory_path self.zephyr_base with
       | some rel => Val.vpath rel
       | none => Val.vstr "out_of_tree")
    Except.ok (d5, { self with tests := testsSet self.tests scenario d5 })

/-- State of a `RegularSpecificationProcessor` after `__init__`: the
collected pytest item's names, the pytest root path, the test directory,
the spec file path and the merged scenario mapping. -/
structure RegularProcessorState where
  item_name : String
  item_originalname : String
  rootpath : List String
  test_directory_path : List String
  spec_file_path : String
  tests : List (String × SpecDict)
deriving DecidableEq

/-- Model of `RegularSpecificationProcessor.prepare_spec_dict`: like the YAML
variant but the relative-path computation has no handler, so a
relativization failure propagates (pathlib's `ValueError`). -/
def regularPrepareSpecDict (self : RegularProcessorState) (platform : PlatformSpecification)
    (scenario : String) : Except ProcessorError (SpecDict × RegularProcessorState) :=
  match testsGet self.tests scenario with
  | none => Except.error (ProcessorError.config
      ("There is no specification for " ++ scenario ++ " in file " ++ self.spec_file_path))
  | some test_spec_dict =>
    let d1 := dictSet test_spec_dict "name" (Val.vstr self.item_name)
    let d2 := dictSet d1 "original_name" (Val.vstr self.item_originalname)
    let d3 := dictSet d2 "source_dir" (Val.vpath self.test_directory_path)
    let d4 := dictSet d3 "platform" (Val.vstr platform.identifier)
    let d5 := dictSet d4 "build_name" (Val.vstr scenario)
    match relative_to self.test_directory_path self.rootpath with
    | some rel =>
      let d6 := dictSet d5 "rel_to_base_path" (Val.vpath rel)
      Except.ok (d6, { self with tests := testsSet self.tests scenario d6 })
    | none => Except.error (ProcessorError.valueError
      (pathToString self.test_directory_path ++ " is not in the subpath of "
        ++ pathToString self.rootpath))

/-- Model of `SpecificationProcessor.create_spec_from_dict`, after the
`YamlTestSpecification(**test_spec_dict)` construction step: the timeout
is ceiling-rounded after applying the platform's timeout multiplier. -/
def create_spec_from_dict (test_spec : YamlTestSpecification)
    (platform : PlatformSpecification) : YamlTestSpecification :=
  { test_spec with
    timeout := ((⌈test_spec.timeout * platform.testing.timeout_multiplier⌉ : ℤ) : ℚ) }

/-- Body of the inner loop of `FilterPlugin.pytest_collection_modifyitems`:
`for filter_ in self._filters:` with an unconditional `break` in both
branches, so only the head of the filter list is ever consulted; with no
filters registered the item lands in neither list. -/
def processItem {Item : Type} (filters : List (Item → Bool)) (item : Item)
    (selected deselected : List Item) : List Item × List Item :=
  match filters with
  | [] => (selected, deselected)
  | filter_ :: _ =>
    if filter_ item then (selected, deselected ++ [item])
    else (selected ++ [item], deselected)

/-- Model of `FilterPlugin.pytest_collection_modifyitems`: runs the item loop and
returns the new live collection (`items[:] = selected_items`), the
deselected list, and whether `config.hook.pytest_deselected` was invoked
(only when the deselected list is non-empty). -/
def pytest_collection_modifyitems {Item : Type} (filters : List (Item → Bool))
    (items : List Item) : List Item × List Item × Bool :=
  let acc := items.foldl (fun acc item => processItem filters item acc.1 acc.2) ([], [])
  (acc.1, acc.2, !acc.2.isEmpty)

lemma dictGet_dictSet (d : SpecDict) (k k' : String) (v : Val) :
    dictGet (dictSet d k v) k' = if k = k' then some v else dictGet d k' := by
  induction d with
  | nil => simp [dictGet, dictSet]
  | cons hd tl ih =>
    obtain ⟨k1, v1⟩ := hd
    simp only [dictSet]
    split_ifs with h1 <;> simp only [dictGet, ih] <;> split_ifs <;> simp_all

lemma testsGet_testsSet (t : List (String × SpecDict)) (k : String) (d : SpecDict) :
    testsGet (testsSet t k d) k = some d := by
  induction t with
  | nil => simp [testsGet, testsSet]
  | cons hd tl ih =>
    obtain ⟨k1, v1⟩ := hd
    simp only [testsSet]
    split_ifs with h1 <;> simp_all [testsGet]

lemma foldl_processItem_nil {Item : Type} (items : List Item) (acc : List Item × List Item) :
    items.foldl (fun acc item => processItem ([] : List (Item → Bool)) item acc.1 acc.2) acc
      = acc := by
  induction items generalizing acc <;> simp_all [processItem]

/-- C10: with an empty registered filter list, `pytest_collection_modifyitems`
replaces the live collection with the empty list — every item is dropped,
none is kept as selected, none is reported deselected, and the
`pytest_deselected` hook is not invoked. -/
theorem empty_filter_list_drops_every_item {Item : Type} (items : List Item) :
    pytest_collection_modifyitems ([] : List (Item → Bool)) items = ([], [], false) := by
  simp [pytest_collection_modifyitems, foldl_processItem_nil]

/-- C3: with filters `[F1, F2]` where `F1` is identically false and `F2`
identically true, the hook keeps the single item in the selected
collection and deselects nothing, even though `F2` — the first filter
that returns true for the item — should have deselected it: the
unconditional `break` in both branches makes every filter after the
first dead code. -/
theorem first_filter_break_ignores_matching_second_filter :
    pytest_collection_modifyitems [fun (_ : Nat) => false, fun (_ : Nat) => true] [0]
      = ([0], [], false)
    ∧ (fun (_ : Nat) => true) 0 = true := ⟨rfl, rfl⟩

/-- C2 counterexample: combining the non-empty filter expression `B` with
the empty expression is not a no-op — `_join_filters` wraps the surviving
side in parentheses, returning `(B)` rather than `B`, so the empty string
is not an identity element of the combination. -/
theorem join_filters_empty_not_identity :
    join_filters ["B", ""] = "(B)" ∧ join_filters ["B", ""] ≠ "B" := by
  constructor <;> decide

/-- C2 (amended): combining two non-empty filter expressions yields
`(B) and (A)`; combining a non-empty expression with an empty one drops
the empty side but still parenthesizes the remaining side, yielding
`(B)`; combining two empty expressions yields the empty string; only a
singleton argument list is returned unchanged. -/
theorem join_filters_characterization (A B : String) (hA : A ≠ "") (hB : B ≠ "") :
    join_filters [B, A] = "(" ++ B ++ ") and (" ++ A ++ ")"
    ∧ join_filters [B, ""] = "(" ++ B ++ ")"
    ∧ join_filters ["", A] = "(" ++ A ++ ")"
    ∧ join_filters ["", ""] = ""
    ∧ join_filters [A] = A := by
  refine ⟨?_, ?_, ?_, ?_, ?_⟩ <;>
    (simp [join_filters, str_join, hA, hB, List.filter];
     try (apply String.ext; simp [String.data_append]))

/-- C2 witness: the amended characterization at `A := "A"`, `B := "B"`. -/
theorem join_filters_characterization_witness :
    join_filters ["B", "A"] = "(" ++ "B" ++ ") and (" ++ "A" ++ ")"
    ∧ join_filters ["B", ""] = "(" ++ "B" ++ ")"
    ∧ join_filters ["", "A"] = "(" ++ "A" ++ ")"
    ∧ join_filters ["", ""] = ""
    ∧ join_filters ["A"] = "A" :=
  join_filters_characterization "A" "B" (by decide) (by decide)

/-- A concrete platform descriptor used to instantiate witnesses. -/
def samplePlatform : PlatformSpecification :=
  { identifier := "native_posix"
    arch := "arm"
    type := "native"
    ram := 64
    flash := 64
    toolchain := ["zephyr"]
    only_tags := []
    ignore_tags := []
    testing := { timeout_multiplier := 3/2 } }

/-- A concrete resolved specification with permissive constraint fields,
used to instantiate witnesses. -/
def sampleSpec : YamlTestSpecification :=
  { name := "scenario1[native_posix]"
    original_name := "scenario1"
    platform := "native_posix"
    build_name := "scenario1"
    source_dir := ["zephyr", "tests", "foo"]
    rel_to_base_path := "tests/foo"
    timeout := 60
    tags := []
    arch_allow := []
    arch_exclude := []
    platform_allow := []
    platform_exclude := []
    platform_type := []
    min_ram := 0
    min_flash := 0
    toolchain_allow := []
    toolchain_exclude := []
    harness := ""
    filter := "" }

/-- C1: the aggregate skip decision of `should_be_skip` is the logical OR
of the eight named predicates; the architecture predicate is true exactly
when `arch_allow` is non-empty and the platform's arch is not in it, or
`arch_exclude` contains the platform's arch; with both architecture sets
empty the predicate is false, so an empty allow-set never causes a skip. -/
theorem should_be_skip_or_characterization (test_spec : YamlTestSpecification)
    (platform : PlatformSpecification) :
    ((should_be_skip test_spec platform).1 = true ↔
      ((should_skip_for_arch test_spec platform).1 = true
        ∨ (should_skip_for_platform test_spec platform).1 = true
        ∨ (should_skip_for_platform_type test_spec platform).1 = true
        ∨ (should_skip_for_min_ram test_spec platform).1 = true
        ∨ (should_skip_for_min_flash test_spec platform).1 = true
        ∨ (should_skip_for_toolchain test_spec platform).1 = true
        ∨ (should_skip_for_tag test_spec platform).1 = true
        ∨ (should_skip_for_pytest_harness test_spec platform).1 = true))
    ∧ ((should_skip_for_arch test_spec platform).1 = true ↔
        ((test_spec.arch_allow ≠ [] ∧ platform.arch ∉ test_spec.arch_allow)
          ∨ platform.arch ∈ test_spec.arch_exclude))
    ∧ (test_spec.arch_allow = [] → test_spec.arch_exclude = [] →
        (should_skip_for_arch test_spec platform).1 = false) := by
  refine ⟨?_, ?_, ?_⟩
  · simp only [should_be_skip, List.any_cons, List.any_nil, Bool.or_eq_true, Bool.or_false]
    tauto
  · simp only [should_skip_for_arch]
    split_ifs with h1 h2
    · simp only [true_iff]
      exact Or.inl h1
    · simp only [true_iff]
      exact Or.inr h2.2
    · simp only [false_iff]
      rintro (h | hmem)
      · exact h1 h
      · exact h2 ⟨List.ne_nil_of_mem hmem, hmem⟩
  · intro ha he
    simp [should_skip_for_arch, ha, he]

/-- C1 witness: the characterization applied to a concrete pair whose
architecture allow- and exclude-sets are both empty. -/
theorem should_be_skip_or_characterization_witness :
    (should_skip_for_arch sampleSpec samplePlatform).1 = false :=
  (should_be_skip_or_characterization sampleSpec samplePlatform).2.2 rfl rfl

/-- C9: the minimum-RAM predicate skips exactly when the declared
`min_ram` is strictly greater than the platform's RAM, the minimum-flash
predicate exactly when `min_flash` is strictly greater than the
platform's flash, and equality at either boundary never skips. -/
theorem min_ram_min_flash_strict_boundary (test_spec : YamlTestSpecification)
    (platform : PlatformSpecification) :
    ((should_skip_for_min_ram test_spec platform).1 = true
      ↔ platform.ram < test_spec.min_ram)
    ∧ ((should_skip_for_min_flash test_spec platform).1 = true
      ↔ platform.flash < test_spec.min_flash)
    ∧ (test_spec.min_ram = platform.ram →
        (should_skip_for_min_ram test_spec platform).1 = false)
    ∧ (test_spec.min_flash = platform.flash →
        (should_skip_for_min_flash test_spec platform).1 = false) := by
  refine ⟨?_, ?_, ?_, ?_⟩
  · simp only [should_skip_for_min_ram]
    split_ifs with h <;> simp [h]
  · simp only [should_skip_for_min_flash]
    split_ifs with h <;> simp [h]
  · intro h
    simp [should_skip_for_min_ram, h]
  · intro h
    simp [should_skip_for_min_flash, h]

/-- C9 witness: at `min_ram = ram = 64` and `min_flash = flash = 64`
neither predicate skips (equality at the boundary is sufficient). -/
theorem min_ram_min_flash_strict_boundary_witness :
    (should_skip_for_min_ram { sampleSpec with min_ram := 64, min_flash := 64 }
      samplePlatform).1 = false
    ∧ (should_skip_for_min_flash { sampleSpec with min_ram := 64, min_flash := 64 }
      samplePlatform).1 = false :=
  ⟨(min_ram_min_flash_strict_boundary { sampleSpec with min_ram := 64, min_flash := 64 }
      samplePlatform).2.2.1 rfl,
   (min_ram_min_flash_strict_boundary { sampleSpec with min_ram := 64, min_flash := 64 }
      samplePlatform).2.2.2 rfl⟩

/-- C7: the resolved timeout is the ceiling of the declared timeout times
the platform's timeout multiplier, hence never less than the exact
product (no truncation); declared timeout 5 with multiplier 3/2 resolves
to 8. -/
theorem timeout_ceiling_rounding (test_spec : YamlTestSpecification)
    (platform : PlatformSpecification) :
    (create_spec_from_dict test_spec platform).timeout
      = ((⌈test_spec.timeout * platform.testing.timeout_multiplier⌉ : ℤ) : ℚ)
    ∧ test_spec.timeout * platform.testing.timeout_multiplier
        ≤ (create_spec_from_dict test_spec platform).timeout
    ∧ (test_spec.timeout = 5 → platform.testing.timeout_multiplier = 3/2 →
        (create_spec_from_dict test_spec platform).timeout = 8) := by
  refine ⟨rfl, ?_, ?_⟩
  · simp only [create_spec_from_dict]
    exact Int.le_ceil _
  · intro h1 h2
    simp only [create_spec_from_dict, h1, h2]
    norm_cast
    rw [Int.ceil_eq_iff]
    norm_num

/-- C7 witness: a declared timeout of 5 on a platform with multiplier 3/2
resolves to 8. -/
theorem timeout_ceiling_rounding_witness :
    (create_spec_from_dict { sampleSpec with timeout := 5 } samplePlatform).timeout = 8 :=
  (timeout_ceiling_rounding { sampleSpec with timeout := 5 } samplePlatform).2.2 rfl rfl

lemma arch_log_length (ts : YamlTestSpecification) (p : PlatformSpecification) :
    (should_skip_for_arch ts p).2.length = cond (should_skip_for_arch ts p).1 1 0 := by
  simp only [should_skip_for_arch]
  split_ifs <;> rfl

lemma min_flash_log_length (ts : YamlTestSpecification) (p : PlatformSpecification) :
    (should_skip_for_min_flash ts p).2.length = cond (should_skip_for_min_flash ts p).1 1 0 := by
  simp only [should_skip_for_min_flash]
  split_ifs <;> rfl

lemma min_ram_log_length (ts : YamlTestSpecification) (p : PlatformSpecification) :
    (should_skip_for_min_ram ts p).2.length = cond (should_skip_for_min_ram ts p).1 1 0 := by
  simp only [should_skip_for_min_ram]
  split_ifs <;> rfl

lemma platform_log_length (ts : YamlTestSpecification) (p : PlatformSpecification) :
    (should_skip_for_platform ts p).2.length = cond (should_skip_for_platform ts p).1 1 0 := by
  simp only [should_skip_for_platform]
  split_ifs <;> rfl

lemma platform_type_log_length (ts : YamlTestSpecification) (p : PlatformSpecification) :
    (should_skip_for_platform_type ts p).2.length
      = cond (should_skip_for_platform_type ts p).1 1 0 := by
  simp only [should_skip_for_platform_type]
  split_ifs <;> rfl

lemma pytest_harness_log_length (ts : YamlTestSpecification) (p : PlatformSpecification) :
    (should_skip_for_pytest_harness ts p).2.length
      = cond (should_skip_for_pytest_harness ts p).1 1 0 := by
  simp only [should_skip_for_pytest_harness]
  split_ifs <;> rfl

lemma tag_log_length (ts : YamlTestSpecification) (p : PlatformSpecification) :
    (should_skip_for_tag ts p).2.length = cond (should_skip_for_tag ts p).1 1 0 := by
  simp only [should_skip_for_tag]
  split_ifs <;> rfl

lemma toolchain_log_length (ts : YamlTestSpecification) (p : PlatformSpecification) :
    (should_skip_for_toolchain ts p).2.length = cond (should_skip_for_toolchain ts p).1 1 0 := by
  simp only [should_skip_for_toolchain]
  split_ifs <;> rfl

/-- C6 counterexample: a pair violating both the min-flash and min-RAM
constraints gets two skip reasons logged by `should_be_skip` — Python
builds the full predicate list before `any`, so there is no
short-circuit and more than one reason can be logged per skipped pair. -/
theorem should_be_skip_logs_two_reasons :
    (should_be_skip { sampleSpec with min_ram := 64, min_flash := 64 }
        { samplePlatform with ram := 32, flash := 32 }).1 = true
    ∧ (should_be_skip { sampleSpec with min_ram := 64, min_flash := 64 }
        { samplePlatform with ram := 32, flash := 32 }).2.length = 2
    ∧ (should_skip_for_min_flash { sampleSpec with min_ram := 64, min_flash := 64 }
        { samplePlatform with ram := 32, flash := 32 }).1 = true
    ∧ (should_skip_for_min_ram { sampleSpec with min_ram := 64, min_flash := 64 }
        { samplePlatform with ram := 32, flash := 32 }).1 = true :=
  ⟨rfl, rfl, rfl, rfl⟩

/-- C6 (amended): `should_be_skip` evaluates all eight predicates eagerly
(the list is built before `any` is applied); every matching predicate
logs its reason, so the number of logged reasons equals the number of
predicates that returned true — and the pair is skipped exactly when at
least one reason was logged. -/
theorem should_be_skip_eager_logging (ts : YamlTestSpecification)
    (p : PlatformSpecification) :
    ((should_be_skip ts p).1 = true ↔ (should_be_skip ts p).2 ≠ [])
    ∧ (should_be_skip ts p).2.length =
        cond (should_skip_for_arch ts p).1 1 0
        + cond (should_skip_for_min_flash ts p).1 1 0
        + cond (should_skip_for_min_ram ts p).1 1 0
        + cond (should_skip_for_platform ts p).1 1 0
        + cond (should_skip_for_platform_type ts p).1 1 0
        + cond (should_skip_for_pytest_harness ts p).1 1 0
        + cond (should_skip_for_tag ts p).1 1 0
        + cond (should_skip_for_toolchain ts p).1 1 0 := by
  have L : (should_be_skip ts p).2.length =
      cond (should_skip_for_arch ts p).1 1 0
      + cond (should_skip_for_min_flash ts p).1 1 0
      + cond (should_skip_for_min_ram ts p).1 1 0
      + cond (should_skip_for_platform ts p).1 1 0
      + cond (should_skip_for_platform_type ts p).1 1 0
      + cond (should_skip_for_pytest_harness ts p).1 1 0
      + cond (should_skip_for_tag ts p).1 1 0
      + cond (should_skip_for_toolchain ts p).1 1 0 := by
    simp only [should_be_skip, List.map_cons, List.map_nil, List.flatten_cons,
      List.flatten_nil, List.length_append, List.length_nil,
      arch_log_length, min_flash_log_length, min_ram_log_length, platform_log_length,
      platform_type_log_length, pytest_harness_log_length, tag_log_length,
      toolchain_log_length]
    omega
  have hOr : (should_be_skip ts p).1 =
      ((should_skip_for_arch ts p).1 || (should_skip_for_min_flash ts p).1
        || (should_skip_for_min_ram ts p).1 || (should_skip_for_platform ts p).1
        || (should_skip_for_platform_type ts p).1 || (should_skip_for_pytest_harness ts p).1
        || (should_skip_for_tag ts p).1 || (should_skip_for_toolchain ts p).1) := by
    simp [should_be_skip, Bool.or_assoc]
  refine ⟨?_, L⟩
  have cond_pos : ∀ b : Bool, (0 < cond b 1 0 ↔ b = true) := by
    intro b
    cases b <;> simp
  rw [hOr, ← List.length_pos, L]
  simp only [add_pos_iff, cond_pos, Bool.or_eq_true]

/-- A concrete merged scenario dict, as produced by `extract_tests`,
used to instantiate witnesses and counterexamples. -/
def sampleDict : SpecDict := [("tags", Val.vlist ["kernel"]), ("timeout", Val.vnum 60)]

/-- A concrete `YamlSpecificationProcessor` state holding one scenario. -/
def sampleYamlState : YamlProcessorState :=
  { spec_file_path := "tests/foo/testspec.yaml"
    zephyr_base := ["zephyr"]
    test_directory_path := ["zephyr", "tests", "foo"]
    tests := [("scenario1", sampleDict)] }

/-- A concrete `RegularSpecificationProcessor` state holding one scenario. -/
def sampleRegularState : RegularProcessorState :=
  { item_name := "test_foo[native_posix]"
    item_originalname := "test_foo"
    rootpath := ["zephyr"]
    test_directory_path := ["zephyr", "tests", "foo"]
    spec_file_path := "zephyr/tests/foo/testspec.yaml"
    tests := [("scenario1", sampleDict)] }

/-- C8: in both processor variants, resolving a scenario name absent from
the merged mapping raises a configuration error whose message names both
the scenario and the specification file; for a present scenario the YAML
variant succeeds and the regular variant never raises that configuration
error. -/
theorem missing_scenario_configuration_error (ys : YamlProcessorState)
    (rs : RegularProcessorState) (platform : PlatformSpecification) (scenario : String) :
    (testsGet ys.tests scenario = none →
      yamlPrepareSpecDict ys platform scenario = Except.error (ProcessorError.config
        ("There is no specification for " ++ scenario ++ " in file " ++ ys.spec_file_path)))
    ∧ (testsGet rs.tests scenario = none →
      regularPrepareSpecDict rs platform scenario = Except.error (ProcessorError.config
        ("There is no specification for " ++ scenario ++ " in file " ++ rs.spec_file_path)))
    ∧ (∀ d, testsGet ys.tests scenario = some d →
        ∃ r, yamlPrepareSpecDict ys platform scenario = Except.ok r)
    ∧ (∀ d, testsGet rs.tests scenario = some d →
        ∀ m, regularPrepareSpecDict rs platform scenario
          ≠ Except.error (ProcessorError.config m)) := by
  refine ⟨?_, ?_, ?_, ?_⟩
  · intro h
    simp [yamlPrepareSpecDict, h]
  · intro h
    simp [regularPrepareSpecDict, h]
  · intro d h
    simp only [yamlPrepareSpecDict, h]
    exact ⟨_, rfl⟩
  · intro d h m
    simp only [regularPrepareSpecDict, h]
    cases hrel : relative_to rs.test_directory_path rs.rootpath <;> simp

/-- C8 witness: the error for the absent scenario name `"missing"`, and
success for the present scenario name `"scenario1"`. -/
theorem missing_scenario_configuration_error_witness :
    yamlPrepareSpecDict sampleYamlState samplePlatform "missing"
      = Except.error (ProcessorError.config
        ("There is no specification for " ++ "missing" ++ " in file "
          ++ sampleYamlState.spec_file_path))
    ∧ ∃ r, yamlPrepareSpecDict sampleYamlState samplePlatform "scenario1" = Except.ok r :=
  ⟨(missing_scenario_configuration_error sampleYamlState sampleRegularState samplePlatform
      "missing").1 rfl,
   (missing_scenario_configuration_error sampleYamlState sampleRegularState samplePlatform
      "scenario1").2.2.1 sampleDict rfl⟩

/-- C5 (amended): in the YAML-file processor the relativization failure is
always caught and replaced by the sentinel `"out_of_tree"` — the only
error that variant can raise is the missing-scenario configuration
error; the regular processor has no such handler (see the accompanying
counterexample). -/
theorem yaml_relativization_caught (ys : YamlProcessorState)
    (platform : PlatformSpecification) (scenario : String) :
    (∀ e, yamlPrepareSpecDict ys platform scenario = Except.error e →
      ∃ m, e = ProcessorError.config m)
    ∧ (∀ d, testsGet ys.tests scenario = some d →
        relative_to ys.test_directory_path ys.zephyr_base = none →
        ∃ d5 st, yamlPrepareSpecDict ys platform scenario = Except.ok (d5, st)
          ∧ dictGet d5 "rel_to_base_path" = some (Val.vstr "out_of_tree")) := by
  constructor
  · intro e he
    cases h : testsGet ys.tests scenario with
    | none =>
      simp only [yamlPrepareSpecDict, h, Except.error.injEq] at he
      exact ⟨_, he.symm⟩
    | some d =>
      simp [yamlPrepareSpecDict, h] at he
  · intro d h hrel
    simp only [yamlPrepareSpecDict, h, hrel]
    refine ⟨_, _, rfl, ?_⟩
    simp [dictGet_dictSet]

/-- C5 witness: with the zephyr base `["other"]` the test directory is not
relativizable, and the YAML variant resolves `rel_to_base_path` to the
sentinel `"out_of_tree"` rather than raising. -/
theorem yaml_relativization_caught_witness :
    ∃ d5 st, yamlPrepareSpecDict { sampleYamlState with zephyr_base := ["other"] }
        samplePlatform "scenario1" = Except.ok (d5, st)
      ∧ dictGet d5 "rel_to_base_path" = some (Val.vstr "out_of_tree") :=
  (yaml_relativization_caught { sampleYamlState with zephyr_base := ["other"] }
    samplePlatform "scenario1").2 sampleDict rfl rfl

/-- C5 counterexample: the regular processor computes the relative path
with no handler, so a test directory outside the pytest root makes
`prepare_spec_dict` propagate pathlib's `ValueError` to the caller
instead of substituting the sentinel. -/
theorem regular_relativization_propagates :
    regularPrepareSpecDict { sampleRegularState with rootpath := ["other"] }
        samplePlatform "scenario1"
      = Except.error (ProcessorError.valueError
          ("zephyr/tests/foo" ++ " is not in the subpath of " ++ "other")) := rfl

/-- The dict `yamlPrepareSpecDict` produces for `sampleYamlState`,
`samplePlatform` and scenario `"scenario1"`: the stored fields with the
five context keys appended. -/
def sampleResolvedDict : SpecDict :=
  [("tags", Val.vlist ["kernel"]), ("timeout", Val.vnum 60),
   ("name", Val.vstr "scenario1[native_posix]"),
   ("original_name", Val.vstr "scenario1"),
   ("platform", Val.vstr "native_posix"),
   ("source_dir", Val.vpath ["zephyr", "tests", "foo"]),
   ("rel_to_base_path", Val.vpath ["tests", "foo"])]

/-- C4 counterexample: `prepare_spec_dict` is not side-effect free — the
dict it returns is the one stored in `self.tests`, mutated in place, so
the processor's stored per-scenario mapping differs before and after the
call (it has gained the context keys). -/
theorem prepare_spec_dict_mutates_tests :
    yamlPrepareSpecDict sampleYamlState samplePlatform "scenario1"
      = Except.ok (sampleResolvedDict,
          { sampleYamlState with tests := [("scenario1", sampleResolvedDict)] })
    ∧ ({ sampleYamlState with
          tests := [("scenario1", sampleResolvedDict)] } : YamlProcessorState).tests
        ≠ sampleYamlState.tests := by
  constructor
  · rfl
  · decide

/-- C4 (amended): `prepare_spec_dict` does have a side effect — after a
successful call the stored mapping `self.tests` holds the returned dict
(the scenario's fields updated in place with the context keys) — but the
result is reproducible: resolving the same scenario again for any
platform from the mutated state yields a dict with exactly the same
fields as resolving from the original state. -/
theorem prepare_spec_dict_mutation_reproducible
    (ys : YamlProcessorState) (p p2 : PlatformSpecification) (scenario : String)
    (d : SpecDict) (st1 : YamlProcessorState)
    (h : yamlPrepareSpecDict ys p scenario = Except.ok (d, st1)) :
    testsGet st1.tests scenario = some d
    ∧ ∀ d2 st2 d2' st2',
        yamlPrepareSpecDict st1 p2 scenario = Except.ok (d2, st2) →
        yamlPrepareSpecDict ys p2 scenario = Except.ok (d2', st2') →
        ∀ k, dictGet d2 k = dictGet d2' k := by
  cases hg : testsGet ys.tests scenario with
  | none => simp [yamlPrepareSpecDict, hg] at h
  | some d0 =>
    simp only [yamlPrepareSpecDict, hg, Except.ok.injEq, Prod.mk.injEq] at h
    obtain ⟨hd, hst⟩ := h
    subst hd
    constructor
    · rw [← hst]
      exact testsGet_testsSet _ _ _
    · intro d2 st2 d2' st2' h2 h2'
      rw [← hst] at h2
      simp only [yamlPrepareSpecDict, testsGet_testsSet, hg, Except.ok.injEq,
        Prod.mk.injEq] at h2 h2'
      obtain ⟨hd2, _⟩ := h2
      obtain ⟨hd2', _⟩ := h2'
      subst hd2
      subst hd2'
      intro k
      simp only [dictGet_dictSet]
      split_ifs <;> rfl

/-- C4 witness: the amended statement applied to the concrete sample
state, with the resolution hypotheses discharged by computation. -/
theorem prepare_spec_dict_mutation_reproducible_witness :
    testsGet ({ sampleYamlState with
        tests := [("scenario1", sampleResolvedDict)] } : YamlProcessorState).tests
        "scenario1" = some sampleResolvedDict
    ∧ dictGet sampleResolvedDict "name" = dictGet sampleResolvedDict "name" :=
  ⟨(prepare_spec_dict_mutation_reproducible sampleYamlState samplePlatform samplePlatform
      "scenario1" sampleResolvedDict
      { sampleYamlState with tests := [("scenario1", sampleResolvedDict)] } rfl).1,
   (prepare_spec_dict_mutation_reproducible sampleYamlState samplePlatform samplePlatform
      "scenario1" sampleResolvedDict
      { sampleYamlState with tests := [("scenario1", sampleResolvedDict)] } rfl).2
     sampleResolvedDict
     { sampleYamlState with tests := [("scenario1", sampleResolvedDict)] }
     sampleResolvedDict
     { sampleYamlState with tests := [("scenario1", sampleResolvedDict)] }
     rfl rfl "name"⟩

end Twister
